import Mathlib

/-!
Verification of the EnData diffusion/conditioning core against its
natural-language specification.

The definitions below are a shallow embedding, over exact rationals, of
the Python source in `src/generator/diffcharge/diffusion.py` and
`src/generator/conditioning.py`.  Tensors of per-example scalars become
`List ℚ` or functions `Fin d → ℚ`; fallible attribute accesses
(reading a `None` field, or an attribute `__init__` never set) become
`Option`/`Except`; the opaque numeric primitive `torch.sqrt` is passed
in as an explicit function argument `sq : ℚ → ℚ` (instantiated with a
strictly monotone stand-in on concrete checks, where noted), and the
opaque sklearn `GaussianMixture` is modelled by its observable
`score_samples` log-likelihood function.
-/

/-- Decidable equality for `Except`, so that concrete runs of the embedded
fallible operations can be checked by `decide`. -/
instance {ε α : Type} [DecidableEq ε] [DecidableEq α] :
    DecidableEq (Except ε α) := fun x y =>
  match x, y with
  | .ok a, .ok b =>
    if h : a = b then isTrue (by rw [h])
    else isFalse (by intro hc; injection hc; exact h (by assumption))
  | .error a, .error b =>
    if h : a = b then isTrue (by rw [h])
    else isFalse (by intro hc; injection hc; exact h (by assumption))
  | .ok _, .error _ => isFalse (by intro hc; exact Except.noConfusion hc)
  | .error _, .ok _ => isFalse (by intro hc; exact Except.noConfusion hc)

namespace EnData

/-- Embedding of `torch.linspace(start, end, steps)` as a function of the
index `i < steps`: evenly spaced values from `start` to `end` inclusive. -/
def linspace (start stop : ℚ) (steps : ℕ) (i : ℕ) : ℚ :=
  if steps ≤ 1 then start
  else start + (stop - start) * (i : ℚ) / ((steps : ℚ) - 1)

/-- Embedding of `linear_beta_schedule(timesteps, device)` from
`diffusion.py`: `scale = 1000 / timesteps`, then a linspace from
`scale * 0.0001` to `scale * 0.02`.  Note the configured
`beta_start`/`beta_end` are not consulted by this schedule. -/
def linear_beta_schedule (timesteps : ℕ) (i : ℕ) : ℚ :=
  let scale : ℚ := 1000 / (timesteps : ℚ)
  linspace (scale * (1 / 10000)) (scale * (2 / 100)) timesteps i

/-- Embedding of the quadratic fallback schedule from `DDPM.__init__`
(the `else` branch): `linspace(beta_start ** 0.5, beta_end ** 0.5, n) ** 2`,
with `** 0.5` modelled by the explicit square-root argument `sq`. -/
def quadratic_beta_schedule (sq : ℚ → ℚ) (betaStart betaEnd : ℚ)
    (timesteps : ℕ) (i : ℕ) : ℚ :=
  (linspace (sq betaStart) (sq betaEnd) timesteps i) ^ 2

/-- Per-step `alpha` from `DDPM.__init__`: `alpha = 1 - beta`. -/
def alphaOf (beta : ℕ → ℚ) (t : ℕ) : ℚ := 1 - beta t

/-- Embedding of `torch.cumprod(alpha, dim=0)` at index `t`:
the product of `alpha` over steps `0, …, t`. -/
def alphaBarOf (beta : ℕ → ℚ) (t : ℕ) : ℚ :=
  ((List.range (t + 1)).map (alphaOf beta)).prod

/-- Posterior variance from `DDPM.__init__`:
`sigma2[0] = beta[0]`, `sigma2[t] = beta[t]*(1-alphaBar[t-1])/(1-alphaBar[t])`
for `t > 0`. -/
def sigma2Of (beta : ℕ → ℚ) (t : ℕ) : ℚ :=
  if t = 0 then beta 0
  else beta t * (1 - alphaBarOf beta (t - 1)) / (1 - alphaBarOf beta t)

/-- Computable embedding of `torch.inverse` for rational matrices,
via the adjugate formula (agrees with the true inverse whenever the
determinant is nonzero). -/
def matInv {d : ℕ} (M : Fin d → Fin d → ℚ) : Fin d → Fin d → ℚ :=
  fun i j => (Matrix.det (Matrix.of M))⁻¹ * Matrix.adjugate (Matrix.of M) i j

/-- State of `ConditioningModule` relevant to statistics and rarity, from
`conditioning.py`.  The learned embedding tables and MLP are opaque
parameters and not part of this state; attributes that `__init__` does not
set (`gmm`, `log_prob_threshold`, `n_components`) are modelled as `Option`
fields that default to `none` (attribute absent).  The opaque sklearn
mixture is modelled by its `score_samples` log-likelihood function. -/
structure CondState (d : ℕ) where
  alpha : ℚ := 4 / 5
  meanEmbedding : Option (Fin d → ℚ) := none
  covEmbedding : Option (Fin d → Fin d → ℚ) := none
  inverseCovEmbedding : Option (Fin d → Fin d → ℚ) := none
  nSamples : ℕ := 0
  gmm : Option ((Fin d → ℚ) → ℚ) := none
  logProbThreshold : Option ℚ := none
  nComponents : Option ℕ := none

/-- Embedding of `ConditioningModule.__init__` (statistics state): mean,
covariance and inverse covariance unset, `n_samples = 0`, EWMA decay
`alpha` (default `0.8`). -/
def initCond (d : ℕ) (alpha : ℚ := 4 / 5) : CondState d := { alpha := alpha }

/-- Mean of a batch of embeddings along dim 0 (`torch.mean(embeddings, dim=0)`). -/
def batchMean {d : ℕ} (e : List (Fin d → ℚ)) : Fin d → ℚ :=
  fun j => (e.map (fun v => v j)).sum / (e.length : ℚ)

/-- Sample covariance of a batch centred at `m`, with the `1e-6` diagonal
regularization added, as in both `initialize_statistics` and
`update_running_statistics`. -/
def batchCov {d : ℕ} (e : List (Fin d → ℚ)) (m : Fin d → ℚ) : Fin d → Fin d → ℚ :=
  fun j k => (e.map (fun v => (v j - m j) * (v k - m k))).sum / ((e.length : ℚ) - 1)
    + (if j = k then 1 / 1000000 else 0)

/-- Embedding of `ConditioningModule.initialize_statistics`. -/
def initialize_statistics {d : ℕ} (s : CondState d) (e : List (Fin d → ℚ)) :
    CondState d :=
  let m := batchMean e
  let c := batchCov e m
  { s with meanEmbedding := some m, covEmbedding := some c,
           inverseCovEmbedding := some (matInv c), nSamples := e.length }

/-- Embedding of `ConditioningModule.update_running_statistics`: first call
initializes; later calls do the EWMA update of mean and covariance
(including the `(1-alpha)·delta·deltaᵀ` term, where `delta` is computed
against the already-updated mean) and recompute the regularized inverse. -/
def update_running_statistics {d : ℕ} (s : CondState d) (e : List (Fin d → ℚ)) :
    Except String (CondState d) :=
  if s.nSamples = 0 then .ok (initialize_statistics s e)
  else
    match s.meanEmbedding, s.covEmbedding with
    | some m, some c =>
      let bm := batchMean e
      let newMean := fun j => s.alpha * m j + (1 - s.alpha) * bm j
      let bc := batchCov e bm
      let delta := fun j => bm j - newMean j
      let newCov := fun j k =>
        s.alpha * c j k + (1 - s.alpha) * bc j k + (1 - s.alpha) * (delta j * delta k)
      let covReg := fun j k => newCov j k + (if j = k then 1 / 1000000 else 0)
      .ok { s with meanEmbedding := some newMean, covEmbedding := some newCov,
                   inverseCovEmbedding := some (matInv covReg) }
    | _, _ => .error "AttributeError: running statistics are not initialized"

/-- Squared Mahalanobis quadratic form `diff ⬝ invCov ⬝ diff` of one
embedding row, matching `compute_mahalanobis_distance` before the sqrt. -/
def mahaQuad {d : ℕ} (m : Fin d → ℚ) (ic : Fin d → Fin d → ℚ)
    (e : Fin d → ℚ) : ℚ :=
  ∑ j, (∑ i, (e i - m i) * ic i j) * (e j - m j)

/-- Embedding of `ConditioningModule.compute_mahalanobis_distance`.  When the
statistics were never initialized the attributes are `None` and the Python
code raises (`None.unsqueeze` / matmul with `None`); this is the `error`
branch. -/
def compute_mahalanobis_distance (sq : ℚ → ℚ) {d : ℕ} (s : CondState d)
    (es : List (Fin d → ℚ)) : Except String (List ℚ) :=
  match s.meanEmbedding with
  | none => .error "AttributeError: NoneType object has no attribute unsqueeze"
  | some m =>
    match s.inverseCovEmbedding with
    | none => .error "TypeError: matmul received None inverse covariance"
    | some ic => .ok (es.map (fun e => sq (mahaQuad m ic e)))

/-- Embedding of `torch.quantile(xs, q)` (and of `np.percentile` with
`q·100`): sort ascending, linear interpolation at position `q·(n-1)`. -/
def torchQuantile (xs : List ℚ) (q : ℚ) : ℚ :=
  let sorted := xs.insertionSort (· ≤ ·)
  let pos := q * ((xs.length : ℚ) - 1)
  let i := (Int.floor pos).toNat
  let lo := sorted.getD i 0
  let hi := sorted.getD (i + 1) lo
  lo + (pos - (i : ℚ)) * (hi - lo)

/-- Embedding of `ConditioningModule.is_rare`: Mahalanobis distances, then
threshold either the explicit one or the batch-relative `percentile`
quantile of the distances; mask is `distance > threshold`. -/
def is_rare (sq : ℚ → ℚ) {d : ℕ} (s : CondState d) (es : List (Fin d → ℚ))
    (threshold : Option ℚ) (percentile : ℚ := 4 / 5) : Except String (List Bool) :=
  (compute_mahalanobis_distance sq s es).map (fun md =>
    let thr := match threshold with
      | some c => c
      | none => torchQuantile md percentile
    md.map (fun x => decide (thr < x)))

/-- Embedding of the per-batch rarity-mask computation in `DDPM.train_model`
(the post-warm-up branch): when `gmm_fitted` the mask is
`self.conditioning_module.is_rare(mu_detach).float()` (defaults: no explicit
threshold, `percentile = 0.8`); otherwise `torch.zeros(x0.size(0))`. -/
def trainRareMask (sq : ℚ → ℚ) {d : ℕ} (gmmFitted : Bool) (cond : CondState d)
    (muDetach : List (Fin d → ℚ)) : Except String (List ℚ) :=
  if gmmFitted then
    (is_rare sq cond muDetach none (4 / 5)).map (fun mask =>
      mask.map (fun b => if b then (1 : ℚ) else 0))
  else
    .ok (muDetach.map (fun _ => 0))

/-- Modelled from the spec's words, for comparison with `trainRareMask`
(claim C1): a rarity mask obtained from the fitted Gaussian mixture by
thresholding its log-likelihood at the stored cutoff (rare iff the
log-likelihood falls below the cutoff). -/
def specGmmRareMask {d : ℕ} (logProb : (Fin d → ℚ) → ℚ) (cutoff : ℚ)
    (mus : List (Fin d → ℚ)) : List ℚ :=
  mus.map (fun m => if logProb m < cutoff then (1 : ℚ) else 0)

/-- Embedding of `DDPM.fit_gmm`.  The batched gathering of deterministic
embedding means is summarized by its result `allMu`; the opaque
`sklearn.mixture.GaussianMixture` fit is the argument `gmmFit`, returning the
fitted mixture's `score_samples` log-likelihood.  The very first step of the
source reads `self.conditioning_module.n_components`, an attribute
`ConditioningModule.__init__` never sets, so on a freshly constructed module
the access raises `AttributeError` before anything is fitted. -/
def fit_gmm {d : ℕ}
    (gmmFit : ℕ → List (Fin d → ℚ) → ((Fin d → ℚ) → ℚ))
    (cond : CondState d) (allMu : List (Fin d → ℚ)) :
    Except String (CondState d × Bool) :=
  match cond.nComponents with
  | none => .error "AttributeError: ConditioningModule object has no attribute n_components"
  | some nc =>
    let g := gmmFit nc allMu
    let logProbs := allMu.map g
    let cutoff := torchQuantile logProbs (10 / 100)
    .ok ({ cond with gmm := some g, logProbThreshold := some cutoff }, true)

/-- Concrete initialization batch for the claim C1 scenario: two 1-dim
embeddings `-1` and `1`, giving running mean `0` and regularized
covariance `2 + 1e-6`.  In the concrete C1 computations the opaque
`torch.sqrt` argument is instantiated with `id`: the rarity mask compares
each distance against a quantile interpolated strictly between the two
distances, so any strictly increasing stand-in for the square root yields
exactly the mask the floating-point code computes. -/
def c1InitBatch : List (Fin 1 → ℚ) := [fun _ => -1, fun _ => 1]

/-- Concrete conditioning state for claim C1: statistics initialized from
`c1InitBatch`, then a fitted mixture with constant log-likelihood `0` and
stored cutoff `1` recorded, as `fit_gmm` would. -/
def c1State : CondState 1 :=
  { initialize_statistics (initCond 1) c1InitBatch with
      gmm := some (fun _ => 0), logProbThreshold := some 1, nComponents := some 2 }

/-- Concrete batch of embedding means for claim C1. -/
def c1Mus : List (Fin 1 → ℚ) := [fun _ => 1, fun _ => 2]

/-- Embedding of the post-warm-up loss combination in `DDPM.train_model`
(lines 263-285): split the batch by the float rarity mask, compute each
sub-loss only when its subset is nonempty (otherwise it stays the `0.0`
tensor it was initialized to), and combine as
`lam·(N_r/N)·loss_rare + (1-lam)·(N_nr/N)·loss_non_rare`.
The batch element type `α` carries the example together with its
conditioning embedding (`x0[idx]`, `z[idx]`); `calLoss` is the opaque
stochastic `cal_loss` applied to a sub-batch. -/
def postWarmupLoss {α : Type} (calLoss : List α → ℚ) (lam : ℚ)
    (x0 : List α) (rareMask : List ℚ) : ℚ :=
  let paired := x0.zip rareMask
  let xRare := (paired.filter (fun p => decide (p.2 = 1))).map Prod.fst
  let xNonRare := (paired.filter (fun p => decide (p.2 = 0))).map Prod.fst
  let lossRare := if 0 < xRare.length then calLoss xRare else 0
  let lossNonRare := if 0 < xNonRare.length then calLoss xNonRare else 0
  let nR := rareMask.sum
  let nNR := (rareMask.map (fun v => 1 - v)).sum
  let n : ℚ := (x0.length : ℚ)
  lam * (nR / n) * lossRare + (1 - lam) * (nNR / n) * lossNonRare

/-- Embedding of `DDPM.p_sample_step` for one example modelled as a scalar:
`eps_theta = eps_model(concat(xt, z), t)` becomes `epsModel xt z t`;
`mean = (xt - ((1-alpha_t)/sqrt(1-alpha_bar_t))·eps_theta)/sqrt(alpha_t)`;
the added noise is `sqrt(sigma2_t)·z_noise` with `z_noise = 0` when `t = 0`
and the provided standard-normal draw otherwise. -/
def p_sample_step (sq : ℚ → ℚ) (epsModel : ℚ → ℚ → ℕ → ℚ)
    (alpha alphaBar sigma2 : ℕ → ℚ) (xt z : ℚ) (t : ℕ) (draw : ℚ) : ℚ :=
  let epsTheta := epsModel xt z t
  let epsCoef := (1 - alpha t) / sq (1 - alphaBar t)
  let mean := (xt - epsCoef * epsTheta) / sq (alpha t)
  let zNoise := if t = 0 then 0 else draw
  mean + sq (sigma2 t) * zNoise

/-- Embedding of the inlined denoising loop body of `DDPM.sample`
(lines 315-324), run over a list of timesteps: each iteration recomputes
`eps_theta`, the posterior mean, and adds `sqrt(sigma2_t)` times a fresh
draw, zeroed at `t = 0`. -/
def ddpmSampleLoop (sq : ℚ → ℚ) (model : ℚ → ℚ → ℕ → ℚ)
    (alpha alphaBar sigma2 : ℕ → ℚ) (z : ℚ) (draws : ℕ → ℚ) :
    List ℕ → ℚ → ℚ
  | [], x => x
  | t :: ts, x =>
    let epsTheta := model x z t
    let epsCoef := (1 - alpha t) / sq (1 - alphaBar t)
    let mean := (x - epsCoef * epsTheta) / sq (alpha t)
    let noise := if t = 0 then 0 else draws t
    ddpmSampleLoop sq model alpha alphaBar sigma2 z draws ts
      (mean + sq (sigma2 t) * noise)

/-- Embedding of `DDPM.sample`: iterate the loop body over
`reversed(range(n_steps))`, starting from the initial Gaussian draw
`xInit`. -/
def ddpmSample (sq : ℚ → ℚ) (model : ℚ → ℚ → ℕ → ℚ)
    (alpha alphaBar sigma2 : ℕ → ℚ) (z : ℚ) (draws : ℕ → ℚ)
    (nSteps : ℕ) (xInit : ℚ) : ℚ :=
  ddpmSampleLoop sq model alpha alphaBar sigma2 z draws
    ((List.range nSteps).reverse) xInit

/-- Embedding of the batching loop of `DDPM.generate`
(`for start_idx in range(0, total, bs)`), with explicit fuel (one unit per
iteration suffices since each iteration advances `start_idx` by `bs ≥ 1`):
each iteration slices `rows[start : min(start+bs, total)]`, samples the
slice, and the results are concatenated in iteration order. -/
def genLoopFuel {κ ω : Type} (sampleFn : List κ → List ω) (bs total : ℕ)
    (rows : List κ) : ℕ → ℕ → List ω
  | 0, _ => []
  | fuel + 1, start =>
    if start < total then
      sampleFn ((rows.drop start).take (min (start + bs) total - start)) ++
        genLoopFuel sampleFn bs total rows fuel (start + bs)
    else []

/-- Embedding of `DDPM.generate` (default, non-EMA sampling path):
`total = len(next(iter(conditioning_vars.values())))`, loop over
`range(0, total, bs)` with `bs = cfg.model.sampling_batch_size`, then
`torch.cat(generated_samples, dim=0)`. -/
def ddpmGenerate {κ ω : Type} (sampleFn : List κ → List ω) (bs : ℕ)
    (rows : List κ) : List ω :=
  genLoopFuel sampleFn bs rows.length rows rows.length 0

/-- Embedding of the schedule dispatch in `DDPM.__init__` (lines 110-123):
`"linear"` and `"cosine"` select their schedules; EVERY other string falls
into the `else` branch, which builds the quadratic schedule from the
configured `beta_start`/`beta_end` — there is no error branch.  The
transcendental cosine schedule is the opaque argument `cosSched`; the
result is an `Except` so that the spec's claimed fail-fast behaviour is
expressible. -/
def ddpmMakeBeta (sq : ℚ → ℚ) (cosSched : ℕ → ℕ → ℚ) (schedule : String)
    (nSteps : ℕ) (betaStart betaEnd : ℚ) : Except String (ℕ → ℚ) :=
  if schedule = "linear" then .ok (linear_beta_schedule nSteps)
  else if schedule = "cosine" then .ok (cosSched nSteps)
  else .ok (quadratic_beta_schedule sq betaStart betaEnd nSteps)

/-- Schedule-related state of a `DDPM` instance: the four arrays computed
in `__init__` plus the epoch counter.  The network, optimizer, EMA and
conditioning-module tensors restored by `load` are opaque and elided. -/
structure DDPMState where
  beta : ℕ → ℚ
  alpha : ℕ → ℚ
  alphaBar : ℕ → ℚ
  sigma2 : ℕ → ℚ
  currentEpoch : ℕ

/-- Schedule fields as established by `DDPM.__init__` (lines 125-132):
`alpha = 1 - beta`, `alpha_bar = cumprod(alpha)`, `sigma2` per its
closed form; `current_epoch = 0`. -/
def mkDDPMSchedule (beta : ℕ → ℚ) : DDPMState :=
  { beta := beta, alpha := alphaOf beta, alphaBar := alphaBarOf beta,
    sigma2 := sigma2Of beta, currentEpoch := 0 }

/-- Checkpoint contents relevant to the schedule state, each key optional,
mirroring the `if key in ckp` guards of `DDPM.load`. -/
structure Checkpoint where
  epoch : Option ℕ := none
  alphaBar : Option (ℕ → ℚ) := none
  beta : Option (ℕ → ℚ) := none

/-- Embedding of `DDPM.load` restricted to the schedule state: `alpha_bar`,
`beta` and `epoch` are each restored when present and skipped when absent;
the derived fields `alpha` and `sigma2` are never touched. -/
def ddpmLoad (s : DDPMState) (ckp : Checkpoint) : DDPMState :=
  let s1 := match ckp.alphaBar with
    | some ab => { s with alphaBar := ab }
    | none => s
  let s2 := match ckp.beta with
    | some b => { s1 with beta := b }
    | none => s1
  match ckp.epoch with
  | some e => { s2 with currentEpoch := e }
  | none => s2

end EnData

/-- Helper: the mean of the concrete C1 initialization batch is `0`. -/
theorem c1_mean_eval : EnData.batchMean EnData.c1InitBatch = fun _ => 0 := by
  funext j
  norm_num [EnData.batchMean, EnData.c1InitBatch]

/-- Helper: the regularized covariance of the concrete C1 batch is
`2 + 1e-6`. -/
theorem c1_cov_eval :
    EnData.batchCov EnData.c1InitBatch (fun _ => 0) =
      fun _ _ => 2000001 / 1000000 := by
  funext j k
  have hj : j = 0 := Subsingleton.elim j 0
  have hk : k = 0 := Subsingleton.elim k 0
  subst hj; subst hk
  norm_num [EnData.batchCov, EnData.c1InitBatch]

/-- Helper: the inverse of the concrete C1 covariance matrix. -/
theorem c1_inv_eval :
    @EnData.matInv 1 (fun _ _ => (2000001 / 1000000 : ℚ)) =
      fun _ _ => 1000000 / 2000001 := by
  funext i j
  have hi : i = 0 := Subsingleton.elim i 0
  have hj : j = 0 := Subsingleton.elim j 0
  subst hi; subst hj
  simp [EnData.matInv, Matrix.det_fin_one, Matrix.adjugate_fin_one,
    Matrix.one_apply, Matrix.of_apply]

/-- Helper: Mahalanobis quadratic form of the first C1 query embedding. -/
theorem c1_quad_one :
    @EnData.mahaQuad 1 (fun _ => (0 : ℚ)) (fun _ _ => 1000000 / 2000001)
      (fun _ => 1) = 1000000 / 2000001 := by
  norm_num [EnData.mahaQuad, Fin.sum_univ_one]

/-- Helper: Mahalanobis quadratic form of the second C1 query embedding. -/
theorem c1_quad_two :
    @EnData.mahaQuad 1 (fun _ => (0 : ℚ)) (fun _ _ => 1000000 / 2000001)
      (fun _ => 2) = 4000000 / 2000001 := by
  norm_num [EnData.mahaQuad, Fin.sum_univ_one]

/-- Helper: the Mahalanobis distances of the C1 query batch under the
identity stand-in for sqrt. -/
theorem c1_maha_eval :
    EnData.compute_mahalanobis_distance id EnData.c1State EnData.c1Mus =
      .ok [1000000 / 2000001, 4000000 / 2000001] := by
  simp only [EnData.compute_mahalanobis_distance, EnData.c1State,
    EnData.initialize_statistics]
  rw [c1_mean_eval, c1_cov_eval, c1_inv_eval]
  simp only [EnData.c1Mus, List.map_cons, List.map_nil, id_eq]
  rw [c1_quad_one, c1_quad_two]

/-- Helper: the batch-relative 80th-percentile threshold of the C1
distances. -/
theorem c1_quant_eval :
    EnData.torchQuantile [1000000 / 2000001, 4000000 / 2000001] (4 / 5) =
      3400000 / 2000001 := by
  norm_num [EnData.torchQuantile, List.insertionSort, List.orderedInsert,
    List.getD]

/-- Helper: the rarity mask that `train_model` actually computes on the C1
scenario is `[0, 1]`. -/
theorem c1_mask_eval :
    EnData.trainRareMask id true EnData.c1State EnData.c1Mus = .ok [0, 1] := by
  simp only [EnData.trainRareMask, if_pos, EnData.is_rare, c1_maha_eval,
    Except.map]
  rw [c1_quant_eval]
  norm_num

/-- Claim C3, counterexample.  With `T = 10` steps the linear schedule does
NOT yield `beta[0] ≈ 1e-4`, `beta[9] ≈ 0.02`: the code scales the bounds by
`1000 / T = 100`, giving `beta[0] = 1/100` and `beta[9] = 2`, and the
resulting `alpha_bar` sequence is not strictly decreasing
(`alpha_bar[6] > alpha_bar[5]`, since `alpha` turns negative). -/
theorem C3_counterexample :
    EnData.linear_beta_schedule 10 0 = 1 / 100 ∧
    EnData.linear_beta_schedule 10 0 ≠ 1 / 10000 ∧
    EnData.linear_beta_schedule 10 9 = 2 ∧
    EnData.linear_beta_schedule 10 9 ≠ 2 / 100 ∧
    ¬ (∀ t < 9, EnData.alphaBarOf (EnData.linear_beta_schedule 10) (t + 1) <
        EnData.alphaBarOf (EnData.linear_beta_schedule 10) t) := by
  refine ⟨by norm_num [EnData.linear_beta_schedule, EnData.linspace],
          by norm_num [EnData.linear_beta_schedule, EnData.linspace],
          by norm_num [EnData.linear_beta_schedule, EnData.linspace],
          by norm_num [EnData.linear_beta_schedule, EnData.linspace], ?_⟩
  intro h
  have h5 := h 5 (by norm_num)
  rw [show (5 + 1) = 6 from rfl] at h5
  norm_num [EnData.alphaBarOf, EnData.alphaOf, EnData.linear_beta_schedule,
    EnData.linspace, List.range_succ] at h5

/-- Claim C3, amended.  Constructing the linear schedule with `T = 10`
yields `beta[0] = (1000/10)·0.0001 = 0.01` and `beta[9] = (1000/10)·0.02 = 2`
(the configured `beta_start = 1e-4`, `beta_end = 0.02` are ignored by the
linear branch), and `alpha_bar` is not strictly decreasing:
`alpha_bar[6] > alpha_bar[5]`. -/
theorem C3_amended :
    EnData.linear_beta_schedule 10 0 = 1 / 100 ∧
    EnData.linear_beta_schedule 10 9 = 2 ∧
    EnData.alphaBarOf (EnData.linear_beta_schedule 10) 5 <
      EnData.alphaBarOf (EnData.linear_beta_schedule 10) 6 := by
  refine ⟨by norm_num [EnData.linear_beta_schedule, EnData.linspace],
          by norm_num [EnData.linear_beta_schedule, EnData.linspace], ?_⟩
  norm_num [EnData.alphaBarOf, EnData.alphaOf, EnData.linear_beta_schedule,
    EnData.linspace, List.range_succ]

/-- Claim C1, counterexample.  On a state whose mixture assigns constant
log-likelihood `0` with stored cutoff `1` (so the mixture marks every
example rare), the mask actually computed by `train_model` is `[0, 1]`:
it comes from `is_rare`, i.e. from thresholding Mahalanobis distances at
the batch-relative 80th percentile, not from the mixture's log-likelihood
at the stored cutoff, which would give `[1, 1]`. -/
theorem C1_counterexample :
    EnData.trainRareMask id true EnData.c1State EnData.c1Mus = .ok [0, 1] ∧
      EnData.specGmmRareMask (fun _ => 0) 1 EnData.c1Mus = [1, 1] ∧
      ([0, 1] : List ℚ) ≠ [1, 1] :=
  ⟨c1_mask_eval, by decide, by decide⟩

/-- Claim C1, amended.  In `train_model`'s post-warm-up branch the rarity
mask falls back to all zeros whenever the mixture has not been fit; when it
has been fit, the mask is computed by `is_rare` on the detached embedding
means — thresholding each example's Mahalanobis distance (under the running
statistics) at the batch-relative 80th-percentile of those distances — and
is entirely independent of the stored mixture and cutoff fields. -/
theorem C1_amended (d : ℕ) (sq : ℚ → ℚ) (cond : EnData.CondState d)
    (mus : List (Fin d → ℚ)) (g : Option ((Fin d → ℚ) → ℚ)) (c : Option ℚ)
    (nc : Option ℕ) :
    EnData.trainRareMask sq false cond mus = .ok (mus.map fun _ => 0) ∧
      EnData.trainRareMask sq true
          { cond with gmm := g, logProbThreshold := c, nComponents := nc } mus =
        EnData.trainRareMask sq true cond mus ∧
      (∀ m ic, cond.meanEmbedding = some m →
        cond.inverseCovEmbedding = some ic →
        EnData.trainRareMask sq true cond mus =
          .ok (mus.map (fun e =>
            if EnData.torchQuantile
                (mus.map (fun v => sq (EnData.mahaQuad m ic v))) (4 / 5) <
               sq (EnData.mahaQuad m ic e)
            then 1 else 0))) := by
  refine ⟨rfl, rfl, ?_⟩
  intro m ic hm hic
  simp [EnData.trainRareMask, EnData.is_rare,
    EnData.compute_mahalanobis_distance, hm, hic, Except.map, List.map_map,
    Function.comp_def]

/-- Claim C1, witness for the amended theorem, instantiated at the concrete
state of the counterexample:  with statistics initialized from
`c1InitBatch` and the mixture fields populated, the mask computed on
`c1Mus` is `[0, 1]`. -/
theorem C1_witness :
    EnData.trainRareMask id true EnData.c1State EnData.c1Mus = .ok [0, 1] := by
  have h := (C1_amended 1 id EnData.c1State EnData.c1Mus none none none).2.2
    (EnData.batchMean EnData.c1InitBatch)
    (EnData.matInv (EnData.batchCov EnData.c1InitBatch
      (EnData.batchMean EnData.c1InitBatch))) rfl rfl
  refine h.trans ?_
  simp only [c1_cov_eval, c1_inv_eval, c1_mean_eval, EnData.c1Mus,
    List.map_cons, List.map_nil, id_eq, c1_quad_one, c1_quad_two, c1_quant_eval]
  norm_num

/-- Claim C2, code-bug demonstration.  On a `ConditioningModule` as
constructed by `__init__` (which never sets `n_components`), `fit_gmm`
raises an `AttributeError` at its first use of
`self.conditioning_module.n_components`, for every training set of
embedding means and every behaviour of the opaque sklearn fit: it never
completes, and in particular never stores the 10th-percentile cutoff. -/
theorem C2_fit_gmm_fails (d : ℕ) (a : ℚ)
    (gmmFit : ℕ → List (Fin d → ℚ) → ((Fin d → ℚ) → ℚ))
    (allMu : List (Fin d → ℚ)) :
    EnData.fit_gmm gmmFit (EnData.initCond d a) allMu =
      .error "AttributeError: ConditioningModule object has no attribute n_components" :=
  rfl

/-- Claim C7.  Calling `update_running_statistics` with the very batch used
at initialization leaves both the running mean and the running covariance
exactly unchanged: the EWMA mean of two equal values is that value, the
batch covariance expression coincides with the stored one, and the mean-shift
term `delta` vanishes.  (The inverse covariance is recomputed but the claim
concerns mean and covariance.) -/
theorem C7_update_idempotent {d : ℕ} (s : EnData.CondState d)
    (e : List (Fin d → ℚ)) :
    (EnData.update_running_statistics (EnData.initialize_statistics s e) e).map
        (fun st => (st.meanEmbedding, st.covEmbedding)) =
      .ok ((EnData.initialize_statistics s e).meanEmbedding,
           (EnData.initialize_statistics s e).covEmbedding) := by
  by_cases he : e.length = 0
  · simp [EnData.update_running_statistics, EnData.initialize_statistics, he,
      Except.map]
  · simp only [EnData.update_running_statistics, EnData.initialize_statistics, he,
      if_neg he]
    simp only [Except.map]
    refine congrArg Except.ok (Prod.ext ?_ ?_)
    · refine congrArg some (funext fun j => ?_)
      ring
    · refine congrArg some (funext fun j => funext fun k => ?_)
      ring

/-- Claim C9.  On a freshly constructed `ConditioningModule` (no statistics
initialized, `n_samples = 0`), both `compute_mahalanobis_distance` and
`is_rare` fail with an error instead of returning a zero or placeholder
value. -/
theorem C9_uninitialized_fails (d : ℕ) (sq : ℚ → ℚ) (a : ℚ)
    (es : List (Fin d → ℚ)) (thr : Option ℚ) (p : ℚ) :
    EnData.compute_mahalanobis_distance sq (EnData.initCond d a) es =
        .error "AttributeError: NoneType object has no attribute unsqueeze" ∧
      EnData.is_rare sq (EnData.initCond d a) es thr p =
        .error "AttributeError: NoneType object has no attribute unsqueeze" :=
  ⟨rfl, rfl⟩

/-- Helper: zipping a batch with a constant mask and filtering on that same
constant recovers the whole batch. -/
theorem zip_const_filter_self {α : Type} (x0 : List α) (c : ℚ) :
    ((x0.zip (x0.map fun _ => c)).filter (fun p => decide (p.2 = c))).map
      Prod.fst = x0 := by
  induction x0 with
  | nil => rfl
  | cons a l ih => simpa using ih

/-- Helper: zipping a batch with a constant mask and filtering on a different
value yields the empty sub-batch. -/
theorem zip_const_filter_other {α : Type} (x0 : List α) (c v : ℚ) (h : c ≠ v) :
    ((x0.zip (x0.map fun _ => c)).filter (fun p => decide (p.2 = v))).map
      Prod.fst = [] := by
  induction x0 with
  | nil => rfl
  | cons a l ih => simpa [List.filter, h] using ih

/-- Helper: summing a constant over a batch gives length times the constant. -/
theorem sum_map_const {α : Type} (x0 : List α) (c : ℚ) :
    (x0.map fun _ => c).sum = (x0.length : ℚ) * c := by
  induction x0 with
  | nil => simp
  | cons a l ih => simp [ih]; ring

/-- Claim C4.  For a nonempty post-warm-up batch whose rarity mask is all
zeros, the rare subset is empty so `loss_rare` stays the zero it was
initialized to, and the total loss is `(1-lam)·(N/N)·loss_non_rare =
(1-lam)·cal_loss(batch)`; symmetrically, with an all-ones mask the
non-rare sub-loss contributes exactly zero (never a NaN from an empty
sub-batch) and the total is `lam·cal_loss(batch)`. -/
theorem C4_empty_subset_loss {α : Type} (calLoss : List α → ℚ) (lam : ℚ)
    (x0 : List α) (h : x0 ≠ []) :
    EnData.postWarmupLoss calLoss lam x0 (x0.map fun _ => 0) =
        (1 - lam) * calLoss x0 ∧
      EnData.postWarmupLoss calLoss lam x0 (x0.map fun _ => 1) =
        lam * calLoss x0 := by
  have hlen : 0 < x0.length := List.length_pos.mpr h
  have hn : ((x0.length : ℚ)) ≠ 0 := Nat.cast_ne_zero.mpr (by omega)
  constructor
  · simp only [EnData.postWarmupLoss,
      zip_const_filter_other x0 0 1 (by norm_num),
      zip_const_filter_self x0 0, List.map_map, Function.comp_def]
    simp only [List.length_nil, lt_irrefl, if_neg (lt_irrefl 0), if_pos hlen,
      sum_map_const]
    norm_num
    field_simp
  · simp only [EnData.postWarmupLoss,
      zip_const_filter_other x0 1 0 (by norm_num),
      zip_const_filter_self x0 1, List.map_map, Function.comp_def]
    simp only [List.length_nil, lt_irrefl, if_neg (lt_irrefl 0), if_pos hlen,
      sum_map_const]
    norm_num
    field_simp

/-- Claim C4, witness: a singleton batch with loss function `length`,
`lam = 1/2`; the all-zero mask yields `(1-1/2)·1` and the all-one mask
yields `(1/2)·1`. -/
theorem C4_witness :
    EnData.postWarmupLoss (fun l : List ℚ => (l.length : ℚ)) (1 / 2) [0]
        ([(0 : ℚ)].map fun _ => 0) = (1 - 1 / 2) * 1 ∧
      EnData.postWarmupLoss (fun l : List ℚ => (l.length : ℚ)) (1 / 2) [0]
        ([(0 : ℚ)].map fun _ => 1) = 1 / 2 * 1 := by
  have h := C4_empty_subset_loss (fun l : List ℚ => (l.length : ℚ)) (1 / 2)
    [0] (by decide)
  simpa using h

/-- Helper: the inlined denoising loop of `sample` coincides, step by step,
with folding `p_sample_step` over the timestep list, feeding each step the
draw for its timestep. -/
theorem ddpmSampleLoop_eq_foldl (sq : ℚ → ℚ) (model : ℚ → ℚ → ℕ → ℚ)
    (alpha alphaBar sigma2 : ℕ → ℚ) (z : ℚ) (draws : ℕ → ℚ) :
    ∀ (ts : List ℕ) (x : ℚ),
      EnData.ddpmSampleLoop sq model alpha alphaBar sigma2 z draws ts x =
        ts.foldl (fun xc t =>
          EnData.p_sample_step sq model alpha alphaBar sigma2 xc z t (draws t)) x := by
  intro ts
  induction ts with
  | nil => intro x; rfl
  | cons t ts ih =>
    intro x
    simp only [EnData.ddpmSampleLoop, List.foldl_cons, ih,
      EnData.p_sample_step]

/-- Claim C5.  Full sampling iterates the single reverse step over
`t = T-1, …, 0` (the reverse of `range(T)`), and each single step computes
`eps_theta = network(concat(x_t, z), t)`, then
`mean = (x_t - ((1-alpha_t)/sqrt(1-alpha_bar_t))·eps_theta)/sqrt(alpha_t)`,
and adds `sqrt(sigma2_t)·z_noise` with `z_noise = 0` exactly when `t = 0`
and the standard-normal draw otherwise. -/
theorem C5_reverse_step_and_sampling (sq : ℚ → ℚ) (model : ℚ → ℚ → ℕ → ℚ)
    (alpha alphaBar sigma2 : ℕ → ℚ) (z : ℚ) (draws : ℕ → ℚ) :
    (∀ (nSteps : ℕ) (xInit : ℚ),
      EnData.ddpmSample sq model alpha alphaBar sigma2 z draws nSteps xInit =
        ((List.range nSteps).reverse).foldl (fun xc t =>
          EnData.p_sample_step sq model alpha alphaBar sigma2 xc z t (draws t))
          xInit) ∧
    (∀ (xt : ℚ) (t : ℕ) (d : ℚ),
      EnData.p_sample_step sq model alpha alphaBar sigma2 xt z t d =
        (xt - ((1 - alpha t) / sq (1 - alphaBar t)) * model xt z t) /
            sq (alpha t) +
          sq (sigma2 t) * (if t = 0 then 0 else d)) := by
  constructor
  · intro nSteps xInit
    exact ddpmSampleLoop_eq_foldl sq model alpha alphaBar sigma2 z draws
      ((List.range nSteps).reverse) xInit
  · intro xt t d
    rfl

/-- Helper: the generate loop with per-row sampling returns exactly the
mapped remainder of the row list, provided the fuel covers the remaining
rows and the batch size is positive. -/
theorem genLoopFuel_map {κ ω : Type} (f : κ → ω) (bs : ℕ) (rows : List κ)
    (hbs : 0 < bs) :
    ∀ (fuel start : ℕ), rows.length - start ≤ fuel →
      EnData.genLoopFuel (List.map f) bs rows.length rows fuel start =
        List.map f (rows.drop start) := by
  intro fuel
  induction fuel with
  | zero =>
    intro start hle
    have hge : rows.length ≤ start := by omega
    simp [EnData.genLoopFuel, List.drop_eq_nil_of_le hge]
  | succ fuel ih =>
    intro start hle
    by_cases hlt : start < rows.length
    · have hdl : (rows.drop start).length = rows.length - start :=
        List.length_drop start rows
      have hslice : (rows.drop start).take (min (start + bs) rows.length - start)
          = (rows.drop start).take bs := by
        rcases le_or_lt (start + bs) rows.length with hc | hc
        · rw [min_eq_left hc]
          congr 1
          omega
        · rw [min_eq_right (le_of_lt hc)]
          rw [List.take_of_length_le (by omega),
            List.take_of_length_le (by omega)]
      rw [EnData.genLoopFuel, if_pos hlt, hslice, ih (start + bs) (by omega)]
      rw [← List.drop_drop, ← List.map_append, List.take_append_drop]
    · have hge : rows.length ≤ start := by omega
      simp [EnData.genLoopFuel, if_neg hlt, List.drop_eq_nil_of_le hge]

/-- Claim C6.  With a positive sampling batch size and a per-row sampler,
`generate` returns exactly one output row per conditioning row, in the
original input order; concretely, 10 conditioning rows with batch size 4
are processed as sub-batches of sizes `[4, 4, 2]` (first conjunct is the
general law, the second records the sub-batch sizes by sampling each slice
to its length, the third is scenario D itself). -/
theorem C6_generate_partition :
    (∀ (κ ω : Type) (f : κ → ω) (bs : ℕ) (rows : List κ), 0 < bs →
        EnData.ddpmGenerate (List.map f) bs rows = List.map f rows) ∧
      EnData.ddpmGenerate (fun l : List ℕ => [l.length]) 4 (List.range 10) =
        [4, 4, 2] ∧
      EnData.ddpmGenerate (List.map (fun i => i + 100)) 4 (List.range 10) =
        List.map (fun i => i + 100) (List.range 10) := by
  refine ⟨?_, by decide, by decide⟩
  intro κ ω f bs rows hbs
  have h := genLoopFuel_map f bs rows hbs rows.length 0 (by omega)
  simpa [EnData.ddpmGenerate] using h

/-- Claim C6, witness: 7 rows with batch size 3 (sub-batches `[3, 3, 1]`)
come back doubled, in order. -/
theorem C6_witness :
    EnData.ddpmGenerate (List.map (fun i => 2 * i)) 3 (List.range 7) =
      List.map (fun i => 2 * i) (List.range 7) :=
  C6_generate_partition.1 ℕ ℕ (fun i => 2 * i) 3 (List.range 7) (by decide)

/-- Claim C8, counterexample.  Constructing with the unrecognized schedule
name `"bogus"` does NOT fail: the `else` branch silently produces the
quadratic schedule from `beta_start`/`beta_end` (the result is `ok`, not an
error). -/
theorem C8_counterexample :
    EnData.ddpmMakeBeta id (fun _ _ => 0) "bogus" 10 (1 / 10000) (2 / 100) =
        .ok (EnData.quadratic_beta_schedule id (1 / 10000) (2 / 100) 10) ∧
      (EnData.ddpmMakeBeta id (fun _ _ => 0) "bogus" 10 (1 / 10000)
        (2 / 100)).isOk = true := by
  have hl : ¬ ("bogus" = "linear") := by decide
  have hc : ¬ ("bogus" = "cosine") := by decide
  constructor
  · simp only [EnData.ddpmMakeBeta]
    rw [if_neg hl, if_neg hc]
  · simp only [EnData.ddpmMakeBeta]
    rw [if_neg hl, if_neg hc]
    rfl

/-- Claim C8, amended.  Construction with any schedule name other than
`"linear"` and `"cosine"` silently falls back to the quadratic schedule
(`linspace(beta_start^0.5, beta_end^0.5, n)^2`); it never raises. -/
theorem C8_amended (sq : ℚ → ℚ) (cosSched : ℕ → ℕ → ℚ) (s : String)
    (n : ℕ) (bs be : ℚ) (h1 : s ≠ "linear") (h2 : s ≠ "cosine") :
    EnData.ddpmMakeBeta sq cosSched s n bs be =
      .ok (EnData.quadratic_beta_schedule sq bs be n) := by
  simp [EnData.ddpmMakeBeta, h1, h2]

/-- Claim C8, witness: the amended theorem at the concrete unrecognized
name `"sigmoid"`. -/
theorem C8_witness :
    EnData.ddpmMakeBeta id (fun _ _ => 0) "sigmoid" 10 (1 / 10000) (2 / 100) =
      .ok (EnData.quadratic_beta_schedule id (1 / 10000) (2 / 100) 10) :=
  C8_amended id (fun _ _ => 0) "sigmoid" 10 (1 / 10000) (2 / 100)
    (by decide) (by decide)

/-- Claim C10.  `load` restores `beta` (and `alpha_bar`) from a checkpoint
containing them but leaves the derived fields `alpha` and `sigma2` exactly
as constructed; hence whenever the stored `beta` differs from the
constructed one at some timestep, the constructor invariant
`alpha_t = 1 - beta_t` fails between the instance's fields after `load`. -/
theorem C10_load_frame (beta0 : ℕ → ℚ) (ckp : EnData.Checkpoint)
    (b : ℕ → ℚ) (t : ℕ) (hb : ckp.beta = some b) (hne : b t ≠ beta0 t) :
    (EnData.ddpmLoad (EnData.mkDDPMSchedule beta0) ckp).alpha =
        (EnData.mkDDPMSchedule beta0).alpha ∧
      (EnData.ddpmLoad (EnData.mkDDPMSchedule beta0) ckp).sigma2 =
        (EnData.mkDDPMSchedule beta0).sigma2 ∧
      (EnData.ddpmLoad (EnData.mkDDPMSchedule beta0) ckp).beta t = b t ∧
      (EnData.ddpmLoad (EnData.mkDDPMSchedule beta0) ckp).alpha t ≠
        1 - (EnData.ddpmLoad (EnData.mkDDPMSchedule beta0) ckp).beta t := by
  rcases ckp with ⟨eo, abo, bo⟩
  cases hb
  refine ⟨?_, ?_, ?_, ?_⟩ <;>
    cases abo <;> cases eo <;>
      simp [EnData.ddpmLoad, EnData.mkDDPMSchedule, EnData.alphaOf] <;>
        intro hcontra <;> exact hne (by linarith)

/-- Claim C10, witness: constructed schedule `beta = 1/2` everywhere,
checkpoint storing `beta = 1/4`; after `load`, `alpha` and `sigma2` are the
constructed ones and `alpha 0 = 1/2 ≠ 1 - 1/4 = beta 0` after restore. -/
theorem C10_witness :
    (EnData.ddpmLoad (EnData.mkDDPMSchedule fun _ => 1 / 2)
          ⟨none, none, some fun _ => 1 / 4⟩).alpha =
        (EnData.mkDDPMSchedule fun _ => 1 / 2).alpha ∧
      (EnData.ddpmLoad (EnData.mkDDPMSchedule fun _ => 1 / 2)
          ⟨none, none, some fun _ => 1 / 4⟩).sigma2 =
        (EnData.mkDDPMSchedule fun _ => 1 / 2).sigma2 ∧
      (EnData.ddpmLoad (EnData.mkDDPMSchedule fun _ => 1 / 2)
          ⟨none, none, some fun _ => 1 / 4⟩).beta 0 = 1 / 4 ∧
      (EnData.ddpmLoad (EnData.mkDDPMSchedule fun _ => 1 / 2)
          ⟨none, none, some fun _ => 1 / 4⟩).alpha 0 ≠
        1 - (EnData.ddpmLoad (EnData.mkDDPMSchedule fun _ => 1 / 2)
          ⟨none, none, some fun _ => 1 / 4⟩).beta 0 :=
  C10_load_frame (fun _ => 1 / 2) ⟨none, none, some fun _ => 1 / 4⟩
    (fun _ => 1 / 4) 0 rfl (by norm_num)
